import Mathlib

/-!
Shallow embedding of the Seh-AI meal-tracking app's save pipeline,
session-synchronization helper and camera screen, together with proofs
of the behavioural properties stated in the specification.

The embedding models each effectful screen handler as a pure function
from its inputs and an environment (the outcomes of the external
network/SDK calls it performs) to the list of observable events it
emits, in program order.  JavaScript numeric coercion is modelled
explicitly where the code relies on it.
-/

/-- Model of a JavaScript value of type `number | undefined` as it can
reach the macro fields of an analysis result: `undefined` (missing),
`NaN`, or a finite number (modelled as a rational). -/
inductive JSVal where
  | undef : JSVal
  | nan : JSVal
  | num : ℚ → JSVal
  deriving DecidableEq

/-- JavaScript `Number(x)` coercion on such a value: `undefined` becomes
`NaN`, numbers (including `NaN`) are unchanged. -/
def jsNumber : JSVal → JSVal
  | JSVal.undef => JSVal.nan
  | JSVal.nan => JSVal.nan
  | JSVal.num q => JSVal.num q

/-- JavaScript `Math.round`: rounds half toward positive infinity on
finite numbers, propagates `NaN` otherwise. -/
def jsMathRound : JSVal → JSVal
  | JSVal.num q => JSVal.num ((⌊q + 1/2⌋ : ℤ) : ℚ)
  | _ => JSVal.nan

/-- JavaScript truthiness of a numeric value: `undefined`, `NaN` and `0`
are falsy, every other number is truthy. -/
def jsTruthy : JSVal → Bool
  | JSVal.num q => decide (q ≠ 0)
  | _ => false

/-- JavaScript `a || b` on numeric values: yields `a` when truthy,
otherwise `b`. -/
def jsOrElse (a b : JSVal) : JSVal :=
  if jsTruthy a then a else b

/-- The macro-coercion expression used by both write paths in
`handleSaveMeal`: `Math.round(Number(x)) || 0`. -/
def roundNutrient (x : JSVal) : JSVal :=
  jsOrElse (jsMathRound (jsNumber x)) (JSVal.num 0)

/-- Checks that a JavaScript value is an integer-valued number. -/
def isIntVal : JSVal → Bool
  | JSVal.num q => q.den == 1
  | _ => false

/-- The analysis result produced by the AI vision service, as consumed
by the save flow (`result.name` plus four macro fields). -/
structure FoodAnalysisResult where
  name : String
  description : String
  calories : JSVal
  protein : JSVal
  carbs : JSVal
  fat : JSVal
  deriving DecidableEq

/-- The authenticated user object held by the auth context; only its
`id` is consumed by the save flow. -/
structure AppUser where
  id : String
  deriving DecidableEq

/-- The component state `handleSaveMeal` closes over: the analysis
result, the `imageUri` route parameter and the auth-context user. -/
structure SaveInputs where
  result : Option FoodAnalysisResult
  imageUri : Option String
  user : Option AppUser

/-- Outcomes of the external calls issued by `handleSaveMeal`:
the thumbnail upload (`Except.ok url` or a thrown error), the
`supabase.auth.getUser` lookup (`none` models a null user or a
rejection, both land in the inner catch), the `insert_meal` RPC
(`some err` models a non-null `error` field or a rejection), the
fallback `.from('meals').insert` (likewise), and the wall-clock
ISO timestamp used for `meal_time`. -/
structure SaveEnv where
  uploadOutcome : Except String String
  getUserOutcome : Option String
  rpcOutcome : Option String
  insertOutcome : Option String
  now : String

/-- Argument record of the `supabase.rpc('insert_meal', …)` call. -/
structure MealPayload where
  p_name : String
  p_thumbnail_url : String
  p_calories : JSVal
  p_protein : JSVal
  p_carbs : JSVal
  p_fat : JSVal
  deriving DecidableEq

/-- Row passed to the fallback `supabase.from('meals').insert(…)`. -/
structure MealRow where
  name : String
  user_id : String
  calories : JSVal
  protein : JSVal
  carbs : JSVal
  fat : JSVal
  image_url : String
  meal_time : String
  deriving DecidableEq

/-- Observable events of one `handleSaveMeal` run, in program order:
state updates, haptic feedback, the external calls, alerts and the
final navigation. -/
inductive SaveEvent where
  | setSaving : Bool → SaveEvent
  | hapticImpact : SaveEvent
  | hapticSuccess : SaveEvent
  | hapticError : SaveEvent
  | syncAuthCall : SaveEvent
  | uploadCall : String → SaveEvent
  | getUserCall : SaveEvent
  | rpc : MealPayload → SaveEvent
  | tableInsert : MealRow → SaveEvent
  | alertMissingData : SaveEvent
  | alertSaveError : String → SaveEvent
  | alertSuccess : SaveEvent
  | navigateHome : SaveEvent
  deriving DecidableEq

/-- Placeholder thumbnail URL substituted when the upload fails. -/
def placeholderUrl : String :=
  "https://via.placeholder.com/300x200?text=Upload+Failed"

/-- Arguments of the RPC insert, built from the analysis result and the
thumbnail URL exactly as in the source. -/
def rpcPayload (r : FoodAnalysisResult) (thumbnailUrl : String) : MealPayload :=
  { p_name := r.name
    p_thumbnail_url := thumbnailUrl
    p_calories := roundNutrient r.calories
    p_protein := roundNutrient r.protein
    p_carbs := roundNutrient r.carbs
    p_fat := roundNutrient r.fat }

/-- Row of the fallback table insert, built from the analysis result,
the auth-context user, the thumbnail URL and the current time. -/
def fallbackRow (r : FoodAnalysisResult) (u : AppUser) (thumbnailUrl : String)
    (now : String) : MealRow :=
  { name := r.name
    user_id := u.id
    calories := roundNutrient r.calories
    protein := roundNutrient r.protein
    carbs := roundNutrient r.carbs
    fat := roundNutrient r.fat
    image_url := thumbnailUrl
    meal_time := now }

/-- Tail of a successful save: reset `isSaving`, success haptic, success
alert, navigate to the dashboard. -/
def successTail : List SaveEvent :=
  [SaveEvent.setSaving false, SaveEvent.hapticSuccess, SaveEvent.alertSuccess,
    SaveEvent.navigateHome]

/-- Tail of the outer catch: error haptic, error alert, reset
`isSaving`. -/
def errorTail (msg : String) : List SaveEvent :=
  [SaveEvent.hapticError, SaveEvent.alertSaveError msg, SaveEvent.setSaving false]

/-- The inner-catch fallback branch: one direct table insert, then
either the success tail or (if that insert also fails, rethrowing into
the outer catch) the error tail. -/
def fallbackBranch (r : FoodAnalysisResult) (u : AppUser) (thumbnailUrl : String)
    (env : SaveEnv) : List SaveEvent :=
  SaveEvent.tableInsert (fallbackRow r u thumbnailUrl env.now) ::
    match env.insertOutcome with
    | some err => errorTail err
    | none => successTail

/-- Event trace of one invocation of `handleSaveMeal` from
`src/app/results.tsx`.  Guard: `!result || !imageUri || !user` (an empty
`imageUri` string is falsy) alerts and returns without any write.
Otherwise: set `isSaving`, haptic, `syncSupabaseAuth`, thumbnail upload
(falling back to a placeholder URL on failure), then the inner try
(`getUser`, null check, RPC insert) with its catch running the direct
table insert, whose own failure reaches the outer catch. -/
def handleSaveMeal (inp : SaveInputs) (env : SaveEnv) : List SaveEvent :=
  match inp.result, inp.imageUri, inp.user with
  | some r, some uri, some u =>
      if uri.isEmpty then [SaveEvent.alertMissingData]
      else
        let thumbnailUrl :=
          match env.uploadOutcome with
          | Except.ok url => url
          | Except.error _ => placeholderUrl
        SaveEvent.setSaving true :: SaveEvent.hapticImpact ::
          SaveEvent.syncAuthCall :: SaveEvent.uploadCall uri ::
          SaveEvent.getUserCall ::
          (match env.getUserOutcome with
           | none => fallbackBranch r u thumbnailUrl env
           | some _ =>
               SaveEvent.rpc (rpcPayload r thumbnailUrl) ::
                 (match env.rpcOutcome with
                  | some _ => fallbackBranch r u thumbnailUrl env
                  | none => successTail))
  | _, _, _ => [SaveEvent.alertMissingData]

/-- Recognizes the RPC-insert event. -/
def isRpcEvent : SaveEvent → Bool
  | SaveEvent.rpc _ => true
  | _ => false

/-- Recognizes the direct table-insert event. -/
def isTableInsertEvent : SaveEvent → Bool
  | SaveEvent.tableInsert _ => true
  | _ => false

/-- Recognizes the thumbnail-upload event. -/
def isUploadEvent : SaveEvent → Bool
  | SaveEvent.uploadCall _ => true
  | _ => false

/-- Recognizes either write attempt (RPC or direct table insert). -/
def isWriteAttempt (e : SaveEvent) : Bool :=
  isRpcEvent e || isTableInsertEvent e

/-- The sequence of values assigned to `isSaving` during a run. -/
def savingUpdates (t : List SaveEvent) : List Bool :=
  t.filterMap fun e =>
    match e with
    | SaveEvent.setSaving b => some b
    | _ => none

/-- The three externally visible pipeline stages of the save flow the
specification orders: thumbnail upload, RPC insert, table insert. -/
inductive StepKind where
  | uploadStep : StepKind
  | rpcStep : StepKind
  | tableStep : StepKind
  deriving DecidableEq

/-- Projects an event to its pipeline stage, dropping all others. -/
def stepOf : SaveEvent → Option StepKind
  | SaveEvent.uploadCall _ => some StepKind.uploadStep
  | SaveEvent.rpc _ => some StepKind.rpcStep
  | SaveEvent.tableInsert _ => some StepKind.tableStep
  | _ => none

/-- The pipeline stages of a trace, in order of occurrence. -/
def pipelineSteps (t : List SaveEvent) : List StepKind :=
  t.filterMap stepOf

/-- Condition under which the RPC branch of `handleSaveMeal` fails and
its inner catch runs: the `getUser` lookup yields no user (or rejects),
or the RPC call itself reports an error. -/
def rpcBranchFailed (env : SaveEnv) : Bool :=
  env.getUserOutcome.isNone || env.rpcOutcome.isSome

/-- Render model of the action-button row on the results screen: the
buttons exist only when an image URI is present (and truthy), loading
has finished and a result is available; the returned pair is the
`disabled` flag of the Cancel and Save buttons, both bound to
`isSaving`. -/
def actionButtons (imageUri : Option String) (isLoading : Bool)
    (result : Option FoodAnalysisResult) (isSaving : Bool) :
    Option (Bool × Bool) :=
  match imageUri with
  | none => none
  | some s =>
      if s.isEmpty then none
      else if !isLoading && result.isSome then some (isSaving, isSaving)
      else none

/-- A session as consumed by the synchronization helper: the
access/refresh token pair. -/
structure Session where
  access_token : String
  refresh_token : String
  deriving DecidableEq

/-- Joint session state of the two Supabase client handles: the main
client (`@/src/services/supabase`) and the db client
(`@/services/db`). -/
structure AuthState where
  main : Option Session
  db : Option Session
  deriving DecidableEq

/-- Fault model for the two vendor calls inside `syncSupabaseAuth`:
`some err` makes the corresponding awaited call reject. -/
structure SyncEnv where
  getSessionErr : Option String
  setSessionErr : Option String

/-- Vendor calls issued by `syncSupabaseAuth`, in order. -/
inductive SyncEvent where
  | getSessionCall : SyncEvent
  | setSessionCall : String → String → SyncEvent
  deriving DecidableEq

/-- Result of one `syncSupabaseAuth` run: the final joint client state
and the vendor calls made. -/
structure SyncOut where
  state : AuthState
  events : List SyncEvent
  deriving DecidableEq

/-- Body of `syncSupabaseAuth` (the contents of its try block): get the
main client's session; if present, set that access/refresh pair on the
db client.  Returns the outcome together with the error thrown inside
the block, if any. -/
def syncSupabaseAuthBody (s : AuthState) (env : SyncEnv) :
    SyncOut × Option String :=
  match env.getSessionErr with
  | some e => (⟨s, [SyncEvent.getSessionCall]⟩, some e)
  | none =>
      match s.main with
      | none => (⟨s, [SyncEvent.getSessionCall]⟩, none)
      | some sess =>
          match env.setSessionErr with
          | some e =>
              (⟨s, [SyncEvent.getSessionCall,
                SyncEvent.setSessionCall sess.access_token sess.refresh_token]⟩,
                some e)
          | none =>
              (⟨⟨some sess, some ⟨sess.access_token, sess.refresh_token⟩⟩,
                [SyncEvent.getSessionCall,
                  SyncEvent.setSessionCall sess.access_token
                    sess.refresh_token]⟩,
                none)

/-- `syncSupabaseAuth` from `AuthContext`: the body wrapped in the
try/catch that logs and swallows any thrown error, so the returned
promise always resolves (`Except.ok`). -/
def syncSupabaseAuth (s : AuthState) (env : SyncEnv) : Except String SyncOut :=
  match syncSupabaseAuthBody s env with
  | (out, _) => Except.ok out

/-- Outcomes of the external calls of the camera screen handlers:
`takePictureAsync` and `processImageForAI`. -/
structure CamEnv where
  captureOutcome : Except String String
  processOutcome : Except String String

/-- Observable events of the camera screen handlers. -/
inductive CamEvent where
  | setCapturing : Bool → CamEvent
  | camHapticImpact : CamEvent
  | camHapticSuccess : CamEvent
  | captureCall : CamEvent
  | setImage : String → CamEvent
  | alertCamError : String → CamEvent
  | setAnalyzing : Bool → CamEvent
  | processImage : String → CamEvent
  | navigateToResults : String → CamEvent
  deriving DecidableEq

/-- Event trace of `takePicture` from `src/app/(tabs)/camera.tsx`: a
null camera ref returns immediately; otherwise set `isCapturing`,
haptic, call `takePictureAsync`, and either store the photo or alert on
failure. -/
def takePicture (cameraRef : Option Unit) (env : CamEnv) : List CamEvent :=
  match cameraRef with
  | none => []
  | some _ =>
      CamEvent.setCapturing true :: CamEvent.camHapticImpact ::
        CamEvent.captureCall ::
        match env.captureOutcome with
        | Except.ok uri =>
            [CamEvent.setImage uri, CamEvent.setCapturing false,
              CamEvent.camHapticSuccess]
        | Except.error e =>
            [CamEvent.setCapturing false, CamEvent.alertCamError e]

/-- Event trace of `handleAnalyzeImage`: a null captured image returns
immediately; otherwise set `isAnalyzing`, haptic, process the image and
navigate to the results screen with the processed URI, or alert on
failure. -/
def handleAnalyzeImage (capturedImage : Option String) (env : CamEnv) :
    List CamEvent :=
  match capturedImage with
  | none => []
  | some uri =>
      CamEvent.setAnalyzing true :: CamEvent.camHapticImpact ::
        CamEvent.processImage uri ::
        match env.processOutcome with
        | Except.ok processed => [CamEvent.navigateToResults processed]
        | Except.error e =>
            [CamEvent.setAnalyzing false, CamEvent.alertCamError e]

/-- The view the camera screen renders, selected by the three early
returns of the component. -/
inductive CameraUI where
  | loadingView : CameraUI
  | permissionView : CameraUI
  | previewView : String → CameraUI
  | cameraView : Bool → CameraUI
  deriving DecidableEq

/-- Render function of `CameraScreen`: unknown permission shows the
loading view, denied permission shows the permission-request view, a
captured image shows the preview, otherwise the camera view (with the
vendor camera mounted exactly when the tab is focused). -/
def renderCameraScreen (hasCameraPermission : Option Bool)
    (capturedImage : Option String) (isFocused : Bool) : CameraUI :=
  match hasCameraPermission with
  | none => CameraUI.loadingView
  | some false => CameraUI.permissionView
  | some true =>
      match capturedImage with
      | some uri => CameraUI.previewView uri
      | none => CameraUI.cameraView isFocused

/-- Sample analysis result used by the concrete witnesses. -/
def sampleResult : FoodAnalysisResult :=
  { name := "Apple"
    description := "A medium apple"
    calories := JSVal.num 95
    protein := JSVal.num (1/2)
    carbs := JSVal.num 25
    fat := JSVal.nan }

/-- Sample authenticated user used by the concrete witnesses. -/
def sampleUser : AppUser := { id := "user-1" }

/-- Fully populated save inputs used by the concrete witnesses. -/
def sampleInputs : SaveInputs :=
  { result := some sampleResult
    imageUri := some "file://img.jpg"
    user := some sampleUser }

/-- Environment in which every external call succeeds. -/
def sampleEnvOk : SaveEnv :=
  { uploadOutcome := Except.ok "https://cdn.example/img.jpg"
    getUserOutcome := some "user-1"
    rpcOutcome := none
    insertOutcome := none
    now := "2026-01-01T00:00:00.000Z" }

/-- Environment in which the RPC fails and the fallback insert
succeeds. -/
def sampleEnvRpcFail : SaveEnv :=
  { uploadOutcome := Except.ok "https://cdn.example/img.jpg"
    getUserOutcome := some "user-1"
    rpcOutcome := some "schema cache error"
    insertOutcome := none
    now := "2026-01-01T00:00:00.000Z" }

/-- Environment in which both write paths fail. -/
def sampleEnvBothFail : SaveEnv :=
  { uploadOutcome := Except.ok "https://cdn.example/img.jpg"
    getUserOutcome := some "user-1"
    rpcOutcome := some "schema cache error"
    insertOutcome := some "row level security violation"
    now := "2026-01-01T00:00:00.000Z" }

/-- Environment in which the thumbnail upload fails and both inserts
succeed. -/
def sampleEnvUploadFail : SaveEnv :=
  { uploadOutcome := Except.error "storage bucket unavailable"
    getUserOutcome := some "user-1"
    rpcOutcome := none
    insertOutcome := none
    now := "2026-01-01T00:00:00.000Z" }

/-- Sample joint client state with an active main session. -/
def sampleAuthState : AuthState :=
  { main := some { access_token := "at-1", refresh_token := "rt-1" }
    db := none }

/-- Fault-free environment for the synchronization helper. -/
def sampleSyncEnvOk : SyncEnv :=
  { getSessionErr := none, setSessionErr := none }

/-- Camera environment in which capture and processing succeed. -/
def sampleCamEnv : CamEnv :=
  { captureOutcome := Except.ok "file://photo.jpg"
    processOutcome := Except.ok "file://processed.jpg" }

/-- C2: whenever the main client holds an active session and the two
vendor calls resolve, `syncSupabaseAuth` resolves with the db client
holding exactly the access/refresh token pair of the main client's
session, the main client unchanged, so both handles observe the same
logged-in identity. -/
theorem sync_copies_session (s : AuthState) (env : SyncEnv) (sess : Session)
    (hmain : s.main = some sess) (hget : env.getSessionErr = none)
    (hset : env.setSessionErr = none) :
    syncSupabaseAuth s env = Except.ok
      ⟨⟨some sess, some ⟨sess.access_token, sess.refresh_token⟩⟩,
        [SyncEvent.getSessionCall,
          SyncEvent.setSessionCall sess.access_token sess.refresh_token]⟩ := by
  obtain ⟨m, d⟩ := s
  obtain ⟨ge, se⟩ := env
  dsimp only at hmain hget hset
  subst hget hset hmain
  rfl

/-- Witness for `sync_copies_session` at a concrete state and
environment. -/
theorem sync_copies_session_witness :
    syncSupabaseAuth sampleAuthState sampleSyncEnvOk = Except.ok
      ⟨⟨some ⟨"at-1", "rt-1"⟩, some ⟨"at-1", "rt-1"⟩⟩,
        [SyncEvent.getSessionCall, SyncEvent.setSessionCall "at-1" "rt-1"]⟩ :=
  sync_copies_session sampleAuthState sampleSyncEnvOk ⟨"at-1", "rt-1"⟩ rfl rfl rfl

/-- C10: `syncSupabaseAuth` never rejects — every thrown error is
caught, so the promise always resolves — and when the main client has
no active session it performs no `setSession` call and leaves both
clients' session state unchanged. -/
theorem sync_never_rejects (s : AuthState) (env : SyncEnv) :
    (syncSupabaseAuth s env).isOk = true ∧
    (s.main = none → syncSupabaseAuth s env =
      Except.ok ⟨s, [SyncEvent.getSessionCall]⟩) := by
  obtain ⟨m, d⟩ := s
  obtain ⟨ge, se⟩ := env
  cases ge <;> cases m <;> cases se <;>
    exact ⟨rfl, by intro h; first | rfl | simp_all⟩

/-- Witness for `sync_never_rejects` at a concrete state with no active
main session. -/
theorem sync_never_rejects_witness :
    syncSupabaseAuth ⟨none, none⟩ sampleSyncEnvOk =
      Except.ok ⟨⟨none, none⟩, [SyncEvent.getSessionCall]⟩ :=
  (sync_never_rejects ⟨none, none⟩ sampleSyncEnvOk).2 rfl

/-- C7: while the camera permission state is unknown the loading view is
rendered, while it is denied the permission-request view is rendered,
the camera view is rendered only when permission is granted, and
`takePicture` does nothing when no camera ref is mounted. -/
theorem camera_permission_gate :
    (∀ (img : Option String) (f : Bool),
      renderCameraScreen none img f = CameraUI.loadingView) ∧
    (∀ (img : Option String) (f : Bool),
      renderCameraScreen (some false) img f = CameraUI.permissionView) ∧
    (∀ (p : Option Bool) (img : Option String) (f b : Bool),
      renderCameraScreen p img f = CameraUI.cameraView b → p = some true) ∧
    (∀ env : CamEnv, takePicture none env = []) := by
  refine ⟨fun img f => rfl, fun img f => rfl, ?_, fun env => rfl⟩
  intro p img f b h
  cases p with
  | none => simp [renderCameraScreen] at h
  | some pv =>
      cases pv with
      | false => simp [renderCameraScreen] at h
      | true => rfl

/-- Witness for `camera_permission_gate` at concrete permission states. -/
theorem camera_permission_gate_witness :
    renderCameraScreen none none true = CameraUI.loadingView ∧
    (some true : Option Bool) = some true ∧
    takePicture none sampleCamEnv = [] :=
  ⟨camera_permission_gate.1 none true,
    camera_permission_gate.2.2.1 (some true) none true true rfl,
    camera_permission_gate.2.2.2 sampleCamEnv⟩

/-- C1: with all save inputs present, the RPC insert is attempted
exactly when the `getUser` lookup succeeds, and the direct table insert
is performed exactly once if and only if the RPC branch fails (null or
rejected `getUser`, or an RPC error) — in particular, on RPC success no
table insert occurs. -/
theorem rpc_fallback_iff (r : FoodAnalysisResult) (i : String) (u : AppUser)
    (env : SaveEnv) (hne : i.isEmpty = false) :
    (handleSaveMeal ⟨some r, some i, some u⟩ env).countP isRpcEvent =
      (if env.getUserOutcome.isSome then 1 else 0) ∧
    (handleSaveMeal ⟨some r, some i, some u⟩ env).countP isTableInsertEvent =
      (if rpcBranchFailed env then 1 else 0) := by
  obtain ⟨up, gu, rp, ins, now⟩ := env
  cases up <;> cases gu <;> cases rp <;> cases ins <;>
    simp [handleSaveMeal, hne, fallbackBranch, successTail, errorTail,
      rpcBranchFailed, isRpcEvent, isTableInsertEvent, List.countP_cons,
      List.countP_nil]

/-- Witness for `rpc_fallback_iff` in an environment where the RPC
fails: exactly one RPC attempt and exactly one fallback insert. -/
theorem rpc_fallback_iff_witness :
    (handleSaveMeal ⟨some sampleResult, some "file://img.jpg", some sampleUser⟩
      sampleEnvRpcFail).countP isRpcEvent = 1 ∧
    (handleSaveMeal ⟨some sampleResult, some "file://img.jpg", some sampleUser⟩
      sampleEnvRpcFail).countP isTableInsertEvent = 1 :=
  rpc_fallback_iff sampleResult "file://img.jpg" sampleUser sampleEnvRpcFail rfl

/-- C3: with all save inputs present, the pipeline stages of the save
trace occur in the specified order — upload, then RPC insert, then (only
on RPC-branch failure) the table insert — the first stage is always the
upload, a table insert occurs only if the RPC branch failed, and no
navigation to the results screen happens before an image has been
captured or picked (`handleAnalyzeImage` with no captured image does
nothing). -/
theorem save_pipeline_order (r : FoodAnalysisResult) (i : String) (u : AppUser)
    (env : SaveEnv) (camEnv : CamEnv) (hne : i.isEmpty = false) :
    List.Sublist (pipelineSteps (handleSaveMeal ⟨some r, some i, some u⟩ env))
      [StepKind.uploadStep, StepKind.rpcStep, StepKind.tableStep] ∧
    (pipelineSteps (handleSaveMeal ⟨some r, some i, some u⟩ env)).head? =
      some StepKind.uploadStep ∧
    (StepKind.tableStep ∈
        pipelineSteps (handleSaveMeal ⟨some r, some i, some u⟩ env) →
      rpcBranchFailed env = true) ∧
    handleAnalyzeImage none camEnv = [] := by
  obtain ⟨up, gu, rp, ins, now⟩ := env
  cases up <;> cases gu <;> cases rp <;> cases ins <;>
    refine ⟨?_, ?_, ?_, rfl⟩ <;>
    simp [handleSaveMeal, hne, fallbackBranch, successTail, errorTail,
      pipelineSteps, stepOf, rpcBranchFailed, List.filterMap_cons]

/-- Witness for `save_pipeline_order` in the all-success environment:
the stages are exactly upload then RPC, and an empty camera trace. -/
theorem save_pipeline_order_witness :
    List.Sublist (pipelineSteps (handleSaveMeal
        ⟨some sampleResult, some "file://img.jpg", some sampleUser⟩ sampleEnvOk))
      [StepKind.uploadStep, StepKind.rpcStep, StepKind.tableStep] ∧
    (pipelineSteps (handleSaveMeal
        ⟨some sampleResult, some "file://img.jpg", some sampleUser⟩
        sampleEnvOk)).head? = some StepKind.uploadStep ∧
    (StepKind.tableStep ∈ pipelineSteps (handleSaveMeal
        ⟨some sampleResult, some "file://img.jpg", some sampleUser⟩ sampleEnvOk) →
      rpcBranchFailed sampleEnvOk = true) ∧
    handleAnalyzeImage none sampleCamEnv = [] :=
  save_pipeline_order sampleResult "file://img.jpg" sampleUser sampleEnvOk
    sampleCamEnv rfl

/-- C4: when the analysis result, the image URI or the signed-in user is
missing, `handleSaveMeal` only raises the missing-data alert and
performs no write; when all are present, every fallback row written
carries the signed-in user's id and the four rounded macro fields of the
analysis result, and every RPC payload carries the four rounded macro
fields and is only issued when the `getUser` lookup confirmed an
authenticated user. -/
theorem authenticated_record_fields (inp : SaveInputs) (env : SaveEnv) :
    ((inp.result = none ∨ inp.imageUri = none ∨ inp.user = none) →
      handleSaveMeal inp env = [SaveEvent.alertMissingData]) ∧
    (∀ (r : FoodAnalysisResult) (i : String) (u : AppUser),
      inp = ⟨some r, some i, some u⟩ → ∀ row : MealRow,
      SaveEvent.tableInsert row ∈ handleSaveMeal inp env →
      row.user_id = u.id ∧ row.name = r.name ∧
      row.calories = roundNutrient r.calories ∧
      row.protein = roundNutrient r.protein ∧
      row.carbs = roundNutrient r.carbs ∧
      row.fat = roundNutrient r.fat) ∧
    (∀ (r : FoodAnalysisResult) (i : String) (u : AppUser),
      inp = ⟨some r, some i, some u⟩ → ∀ p : MealPayload,
      SaveEvent.rpc p ∈ handleSaveMeal inp env →
      p.p_name = r.name ∧
      p.p_calories = roundNutrient r.calories ∧
      p.p_protein = roundNutrient r.protein ∧
      p.p_carbs = roundNutrient r.carbs ∧
      p.p_fat = roundNutrient r.fat ∧
      env.getUserOutcome.isSome = true) := by
  obtain ⟨res, img, usr⟩ := inp
  obtain ⟨up, gu, rp, ins, now⟩ := env
  refine ⟨?_, ?_, ?_⟩
  · intro h
    cases res <;> cases img <;> cases usr <;> simp_all [handleSaveMeal]
  · intro r i u heq row hmem
    cases heq
    by_cases hi : i.isEmpty <;>
      cases up <;> cases gu <;> cases rp <;> cases ins <;>
        simp_all [handleSaveMeal, fallbackBranch, successTail, errorTail,
          fallbackRow, rpcPayload]
  · intro r i u heq p hmem
    cases heq
    by_cases hi : i.isEmpty <;>
      cases up <;> cases gu <;> cases rp <;> cases ins <;>
        simp_all [handleSaveMeal, fallbackBranch, successTail, errorTail,
          fallbackRow, rpcPayload]

/-- Witness for `authenticated_record_fields`: with no signed-in user
only the missing-data alert is emitted, and in the fallback environment
the written row carries the sample user's id. -/
theorem authenticated_record_fields_witness :
    handleSaveMeal ⟨some sampleResult, some "file://img.jpg", none⟩ sampleEnvOk =
      [SaveEvent.alertMissingData] ∧
    (fallbackRow sampleResult sampleUser "https://cdn.example/img.jpg"
        "2026-01-01T00:00:00.000Z").user_id = sampleUser.id :=
  ⟨(authenticated_record_fields
      ⟨some sampleResult, some "file://img.jpg", none⟩ sampleEnvOk).1
      (Or.inr (Or.inr rfl)),
    ((authenticated_record_fields
        ⟨some sampleResult, some "file://img.jpg", some sampleUser⟩
        sampleEnvRpcFail).2.1 sampleResult "file://img.jpg" sampleUser rfl
      (fallbackRow sampleResult sampleUser "https://cdn.example/img.jpg"
        "2026-01-01T00:00:00.000Z")
      (by
        have h : ("file://img.jpg".isEmpty) = false := by decide
        simp [handleSaveMeal, sampleEnvRpcFail, fallbackBranch, errorTail,
          h])).1⟩

/-- C5: when the fallback table insert also fails, the run ends in the
error state — the error alert carrying the insert error is shown, the
very last event resets `isSaving` to false, no success alert is shown —
and neither write path is retried: exactly one table insert and at most
one RPC attempt occur in the whole run. -/
theorem fallback_failure_terminal (r : FoodAnalysisResult) (i : String)
    (u : AppUser) (env : SaveEnv) (err : String) (hne : i.isEmpty = false)
    (hins : env.insertOutcome = some err) (hfail : rpcBranchFailed env = true) :
    SaveEvent.alertSaveError err ∈
      handleSaveMeal ⟨some r, some i, some u⟩ env ∧
    (handleSaveMeal ⟨some r, some i, some u⟩ env).getLast? =
      some (SaveEvent.setSaving false) ∧
    SaveEvent.alertSuccess ∉ handleSaveMeal ⟨some r, some i, some u⟩ env ∧
    (handleSaveMeal ⟨some r, some i, some u⟩ env).countP isTableInsertEvent = 1 ∧
    (handleSaveMeal ⟨some r, some i, some u⟩ env).countP isRpcEvent ≤ 1 := by
  obtain ⟨up, gu, rp, ins, now⟩ := env
  dsimp only at hins
  subst hins
  cases up <;> cases gu <;> cases rp <;>
    simp_all [handleSaveMeal, hne, fallbackBranch, successTail, errorTail,
      rpcBranchFailed, isRpcEvent, isTableInsertEvent, List.countP_cons,
      List.countP_nil, List.getLast?]

/-- Witness for `fallback_failure_terminal` in the environment where
both write paths fail. -/
theorem fallback_failure_terminal_witness :
    SaveEvent.alertSaveError "row level security violation" ∈
      handleSaveMeal ⟨some sampleResult, some "file://img.jpg", some sampleUser⟩
        sampleEnvBothFail ∧
    (handleSaveMeal ⟨some sampleResult, some "file://img.jpg", some sampleUser⟩
      sampleEnvBothFail).getLast? = some (SaveEvent.setSaving false) ∧
    SaveEvent.alertSuccess ∉
      handleSaveMeal ⟨some sampleResult, some "file://img.jpg", some sampleUser⟩
        sampleEnvBothFail ∧
    (handleSaveMeal ⟨some sampleResult, some "file://img.jpg", some sampleUser⟩
      sampleEnvBothFail).countP isTableInsertEvent = 1 ∧
    (handleSaveMeal ⟨some sampleResult, some "file://img.jpg", some sampleUser⟩
      sampleEnvBothFail).countP isRpcEvent ≤ 1 :=
  fallback_failure_terminal sampleResult "file://img.jpg" sampleUser
    sampleEnvBothFail "row level security violation" rfl rfl rfl

/-- C6: with all save inputs present, the very first event of a save run
sets `isSaving` to true (so it precedes every network call), the
`isSaving` flag is set exactly twice per run — to true at the start and
back to false at the end, on the success path as well as on the failure
path — and whenever the Cancel and Save buttons are rendered while
`isSaving` is true, both are disabled, so no second save can start while
one is in flight. -/
theorem single_inflight_save (r : FoodAnalysisResult) (i : String) (u : AppUser)
    (env : SaveEnv) (hne : i.isEmpty = false) :
    (handleSaveMeal ⟨some r, some i, some u⟩ env).head? =
      some (SaveEvent.setSaving true) ∧
    savingUpdates (handleSaveMeal ⟨some r, some i, some u⟩ env) =
      [true, false] ∧
    (∀ (uri : Option String) (l : Bool) (res : Option FoodAnalysisResult)
      (d : Bool × Bool), actionButtons uri l res true = some d →
      d = (true, true)) := by
  obtain ⟨up, gu, rp, ins, now⟩ := env
  refine ⟨?_, ?_, ?_⟩
  · cases up <;> simp [handleSaveMeal, hne]
  · cases up <;> cases gu <;> cases rp <;> cases ins <;>
      simp [handleSaveMeal, hne, fallbackBranch, successTail, errorTail,
        savingUpdates, List.filterMap_cons]
  · intro uri l res d h
    cases uri with
    | none => exact absurd h (by simp [actionButtons])
    | some s =>
        simp only [actionButtons] at h
        split at h
        · exact absurd h (by simp)
        · split at h
          · exact (Option.some.inj h).symm
          · exact absurd h (by simp)

/-- Witness for `single_inflight_save` in the all-success environment. -/
theorem single_inflight_save_witness :
    (handleSaveMeal ⟨some sampleResult, some "file://img.jpg", some sampleUser⟩
      sampleEnvOk).head? = some (SaveEvent.setSaving true) ∧
    savingUpdates (handleSaveMeal
      ⟨some sampleResult, some "file://img.jpg", some sampleUser⟩ sampleEnvOk) =
      [true, false] ∧
    ((true, true) : Bool × Bool) = (true, true) :=
  ⟨(single_inflight_save sampleResult "file://img.jpg" sampleUser sampleEnvOk
      rfl).1,
    (single_inflight_save sampleResult "file://img.jpg" sampleUser sampleEnvOk
      rfl).2.1,
    (single_inflight_save sampleResult "file://img.jpg" sampleUser sampleEnvOk
      rfl).2.2 (some "file://img.jpg") false (some sampleResult) (true, true)
      rfl⟩

/-- C8: when the thumbnail upload throws, the save still proceeds: at
least one insert attempt (RPC or table) is made, and every write issued
in that run carries the placeholder URL
`https://via.placeholder.com/300x200?text=Upload+Failed` as its
thumbnail. -/
theorem upload_failure_placeholder (r : FoodAnalysisResult) (i : String)
    (u : AppUser) (env : SaveEnv) (e : String) (hne : i.isEmpty = false)
    (hup : env.uploadOutcome = Except.error e) :
    (∀ p : MealPayload,
      SaveEvent.rpc p ∈ handleSaveMeal ⟨some r, some i, some u⟩ env →
      p.p_thumbnail_url = placeholderUrl) ∧
    (∀ row : MealRow,
      SaveEvent.tableInsert row ∈ handleSaveMeal ⟨some r, some i, some u⟩ env →
      row.image_url = placeholderUrl) ∧
    1 ≤ (handleSaveMeal ⟨some r, some i, some u⟩ env).countP isWriteAttempt := by
  obtain ⟨up, gu, rp, ins, now⟩ := env
  dsimp only at hup
  subst hup
  cases gu <;> cases rp <;> cases ins <;>
    refine ⟨?_, ?_, ?_⟩ <;>
      simp [handleSaveMeal, hne, fallbackBranch, successTail, errorTail,
        rpcPayload, fallbackRow, isWriteAttempt, isRpcEvent,
        isTableInsertEvent, List.countP_cons, List.countP_nil]

/-- Witness for `upload_failure_placeholder` in the upload-failure
environment: the issued RPC payload carries the placeholder URL and at
least one write is attempted. -/
theorem upload_failure_placeholder_witness :
    (rpcPayload sampleResult placeholderUrl).p_thumbnail_url = placeholderUrl ∧
    1 ≤ (handleSaveMeal
      ⟨some sampleResult, some "file://img.jpg", some sampleUser⟩
      sampleEnvUploadFail).countP isWriteAttempt :=
  ⟨(upload_failure_placeholder sampleResult "file://img.jpg" sampleUser
      sampleEnvUploadFail "storage bucket unavailable" rfl rfl).1
      (rpcPayload sampleResult placeholderUrl)
      (by
        have h : ("file://img.jpg".isEmpty) = false := by decide
        simp [handleSaveMeal, sampleEnvUploadFail, successTail, h]),
    (upload_failure_placeholder sampleResult "file://img.jpg" sampleUser
      sampleEnvUploadFail "storage bucket unavailable" rfl rfl).2.2⟩

/-- C9: every macro value written by either write path equals
`Math.round(Number(x)) || 0` applied to the corresponding analysis
field: it is always an integer-valued number, a missing (`undefined`) or
`NaN` field is coerced to `0`, and both the RPC payload and the
fallback row carry exactly these coerced values for calories, protein,
carbs and fat. -/
theorem nutrient_rounding (r : FoodAnalysisResult) (i : String) (u : AppUser)
    (env : SaveEnv) (hne : i.isEmpty = false) :
    (∀ x : JSVal, isIntVal (roundNutrient x) = true) ∧
    roundNutrient JSVal.undef = JSVal.num 0 ∧
    roundNutrient JSVal.nan = JSVal.num 0 ∧
    (∀ p : MealPayload,
      SaveEvent.rpc p ∈ handleSaveMeal ⟨some r, some i, some u⟩ env →
      p.p_calories = roundNutrient r.calories ∧
      p.p_protein = roundNutrient r.protein ∧
      p.p_carbs = roundNutrient r.carbs ∧
      p.p_fat = roundNutrient r.fat) ∧
    (∀ row : MealRow,
      SaveEvent.tableInsert row ∈ handleSaveMeal ⟨some r, some i, some u⟩ env →
      row.calories = roundNutrient r.calories ∧
      row.protein = roundNutrient r.protein ∧
      row.carbs = roundNutrient r.carbs ∧
      row.fat = roundNutrient r.fat) := by
  refine ⟨?_, rfl, rfl, ?_, ?_⟩
  · intro x
    cases x with
    | undef => rfl
    | nan => rfl
    | num q =>
        have hr : roundNutrient (JSVal.num q) =
            jsOrElse (JSVal.num ((⌊q + 1/2⌋ : ℤ) : ℚ)) (JSVal.num 0) := rfl
        rw [hr]
        unfold jsOrElse
        cases htr : jsTruthy (JSVal.num ((⌊q + 1/2⌋ : ℤ) : ℚ)) <;>
          simp [htr, isIntVal, Rat.den_intCast]
  · obtain ⟨up, gu, rp, ins, now⟩ := env
    cases up <;> cases gu <;> cases rp <;> cases ins <;>
      simp [handleSaveMeal, hne, fallbackBranch, successTail, errorTail,
        rpcPayload, fallbackRow]
  · obtain ⟨up, gu, rp, ins, now⟩ := env
    cases up <;> cases gu <;> cases rp <;> cases ins <;>
      simp [handleSaveMeal, hne, fallbackBranch, successTail, errorTail,
        rpcPayload, fallbackRow]

/-- Witness for `nutrient_rounding`: a half-integral macro value rounds to
an integer, missing and NaN fields coerce to 0, and the RPC payload
issued in the all-success environment carries the coerced sample
fields. -/
theorem nutrient_rounding_witness :
    isIntVal (roundNutrient (JSVal.num (5/2))) = true ∧
    roundNutrient JSVal.undef = JSVal.num 0 ∧
    roundNutrient JSVal.nan = JSVal.num 0 ∧
    ((rpcPayload sampleResult "https://cdn.example/img.jpg").p_calories =
        roundNutrient sampleResult.calories ∧
      (rpcPayload sampleResult "https://cdn.example/img.jpg").p_protein =
        roundNutrient sampleResult.protein ∧
      (rpcPayload sampleResult "https://cdn.example/img.jpg").p_carbs =
        roundNutrient sampleResult.carbs ∧
      (rpcPayload sampleResult "https://cdn.example/img.jpg").p_fat =
        roundNutrient sampleResult.fat) :=
  ⟨(nutrient_rounding sampleResult "file://img.jpg" sampleUser sampleEnvOk rfl).1
      (JSVal.num (5/2)),
    (nutrient_rounding sampleResult "file://img.jpg" sampleUser sampleEnvOk
      rfl).2.1,
    (nutrient_rounding sampleResult "file://img.jpg" sampleUser sampleEnvOk
      rfl).2.2.1,
    (nutrient_rounding sampleResult "file://img.jpg" sampleUser sampleEnvOk
      rfl).2.2.2.1 (rpcPayload sampleResult "https://cdn.example/img.jpg")
      (by
        have h : ("file://img.jpg".isEmpty) = false := by decide
        simp [handleSaveMeal, sampleEnvOk, successTail, h])⟩
